import Mathlib

/-!
Shallow embedding of `src/Orange/data/sql/postgre_backend.py` (class `PostgreBackend`,
class `TableInfo`) and, for the cross-validation claim, a spec-modelled `KFold`.

Modelling conventions:
* The database driver (`psycopg2` connection + cursor) is a function `Db : String → List Row`
  mapping the SQL string passed to `cursor.execute` to the rows the cursor subsequently
  fetches, in cursor order.  `fetchone` returns the successive elements of that list and
  `None` once it is exhausted; `fetchall` returns the whole list.
* Rows are lists of strings (the SQL text protocol); a NULL is just some string value,
  since none of the verified properties depends on the value domain.
* Python exceptions are the `PyErr` error type of an `Except`; an operation's outcome is a
  `MethodOut`, which also records the SQL strings passed to `cursor.execute` (in order) and
  the backend object's state after the call (`self.table_name` / `self.table_info`).
* `numpy.array(rows).T` is modelled by `List.transpose`, and `array[:, 1]` by taking the
  element at index 1 of each row; both agree with numpy on the rectangular two-column
  responses of the `distributions` query.  On an *empty* response numpy raises
  `IndexError: too many indices` for `array[:, 1]`, which the model reproduces.
-/

namespace Orange

abbrev Row := List String

abbrev Db := String → List Row

/-- Enumeration `Orange.data.Variable.VarTypes` as used by the backend: only `Continuous` is tested. -/
inductive VarType where
  | Continuous
  | Discrete
  | StringVar
deriving DecidableEq

/-- A column object as the backend uses it: `attr.name`, `attr.var_type`, `attr.to_sql()`.
`to_sql = none` models an object without a `to_sql` method (an "ordinary attribute"). -/
structure Attr where
  name : String
  var_type : VarType
  to_sql : Option String
deriving DecidableEq

/-- Python exceptions raised (or raisable) by the embedded code paths. -/
inductive PyErr where
  | assertionError (msg : String)
  | valueError (msg : String)
  | attributeError (msg : String)
  | typeError (msg : String)
  | indexError (msg : String)
deriving DecidableEq

/-- Class `TableInfo`: `__init__` stores `fields` and derives `field_names` and the
`values` dict (modelled as an association list; column names are distinct in a schema).
The third component of a field is `None` / `()` / a tuple of values, hence
`Option (List String)`.  NOTE: `__init__` stores *no* `nrows` attribute, and
`_get_nrows` is never called, so `table_info.nrows` raises `AttributeError`. -/
structure TableInfo where
  fields : List (String × String × Option (List String))
  field_names : List String
  values : List (String × Option (List String))
deriving DecidableEq

/-- Constructor `TableInfo.__init__(fields)`. -/
def TableInfo.make (fields : List (String × String × Option (List String))) : TableInfo :=
  { fields := fields
    field_names := fields.map (fun f => f.1)
    values := fields.map (fun f => (f.1, f.2.2)) }

/-- The state a `PostgreBackend` object carries after `connect` (besides the connection,
which lives in the `Db` parameter). -/
structure Backend where
  table_name : String
  table_info : TableInfo
deriving DecidableEq

/-- Result of one method call: the Python return value (or exception), the SQL strings
passed to `cursor.execute` in order, and the backend state after the call. -/
structure MethodOut (ρ : Type) where
  result : Except PyErr ρ
  executed : List String
  post : Backend

/-- Python `needle in hay` on strings. -/
def strContains (hay needle : String) : Bool :=
  2 ≤ (hay.splitOn needle).length

/-- The generator loop at the end of `query`: `while True: row = cur.fetchone();
if row is None: break; yield row`.  The cursor's fetch stream is the row list, then
`None` forever, so the loop yields each fetched row in order and stops at `None`. -/
def fetchLoop : List Row → List Row
  | [] => []
  | r :: rest => r :: fetchLoop rest

/-- The field-list loop of `query` for `attributes is not None`: per attribute, assert it
has `to_sql`, then append `'(%s) AS "%s"' % (attr.to_sql(), attr.name)`. -/
def buildFieldStrs : List Attr → Except PyErr (List String)
  | [] => .ok []
  | a :: rest =>
    match a.to_sql with
    | none => .error (.assertionError "Cannot use ordinary attributes with sql backend")
    | some s =>
      match buildFieldStrs rest with
      | .error e => .error e
      | .ok fs => .ok (("(" ++ s ++ ") AS \"" ++ a.name ++ "\"") :: fs)

/-- First half of `query`: the field list, `["*"]` when `attributes is None`, else the
built field strings with `ValueError` when the list comes out empty. -/
def buildFields : Option (List Attr) → Except PyErr (List String)
  | none => .ok ["*"]
  | some attrs =>
    match buildFieldStrs attrs with
    | .error e => .error e
    | .ok fields =>
      if fields.isEmpty then .error (.valueError "No fields selected.")
      else .ok fields

/-- The `rows` argument of `query`: a Python `slice(start, stop)` or any other iterable
of indices (already materialised by `list(rows)`). -/
inductive RowsArg where
  | slice (start stop : Option Int)
  | indices (l : List Int)
deriving DecidableEq

/-- Python `min(l)` (`ValueError` on an empty sequence is handled at use site). -/
def listMin : List Int → Option Int
  | [] => none
  | x :: xs => some (xs.foldl min x)

/-- Python `max(l)`. -/
def listMax : List Int → Option Int
  | [] => none
  | x :: xs => some (xs.foldl max x)

/-- SQL construction in `query`, after the field list: the `SELECT ... FROM` base, the
`WHERE` clause joining the truthy filters with `" AND "`, and the `OFFSET/LIMIT` clause.
`start = rows.start or 0` and `stop = rows.stop or self.table_info.nrows` use Python
truthiness (`None` and `0` are falsy), and `table_info.nrows` raises `AttributeError`
because `TableInfo.__init__` never stores it. -/
def buildSql (b : Backend) (fields : List String) (filters : List String)
    (rows : Option RowsArg) : Except PyErr String :=
  let sql := "SELECT " ++ String.intercalate ", " fields ++ " FROM \"" ++ b.table_name ++ "\" "
  let filters2 := filters.filter (fun f => f != "")
  let sql := if filters2.isEmpty then sql
             else sql ++ " WHERE " ++ String.intercalate " AND " filters2 ++ " "
  match rows with
  | none => .ok sql
  | some (.slice st sp) =>
    let start : Int := match st with | some v => if v = 0 then 0 else v | none => 0
    match sp with
    | some v =>
      if v = 0 then
        .error (.attributeError "TableInfo object has no attribute nrows")
      else
        .ok (sql ++ " OFFSET " ++ toString start ++ " LIMIT " ++ toString (v - start))
    | none => .error (.attributeError "TableInfo object has no attribute nrows")
  | some (.indices l) =>
    match listMin l, listMax l with
    | some mn, some mx =>
      .ok (sql ++ " OFFSET " ++ toString mn ++ " LIMIT " ++ toString (mx - mn + 1))
    | _, _ => .error (.valueError "min() arg is an empty sequence")

/-- Method `PostgreBackend.query` before the state/trace packaging: result and executed SQL.
All exception exits of `query` happen before `cur.execute(sql)`. -/
def queryRE (b : Backend) (attributes : Option (List Attr)) (filters : List String)
    (rows : Option RowsArg) (db : Db) : Except PyErr (String × List Row) × List String :=
  match buildFields attributes with
  | .error e => (.error e, [])
  | .ok fields =>
    match buildSql b fields filters rows with
    | .error e => (.error e, [])
    | .ok sql => (.ok (sql, fetchLoop (db sql)), [sql])

/-- Method `PostgreBackend.query(attributes, filters, rows)`.  The method assigns no attribute
of `self`, so the post state is the receiver. -/
def Backend.query (b : Backend) (attributes : Option (List Attr)) (filters : List String)
    (rows : Option RowsArg) (db : Db) : MethodOut (String × List Row) :=
  { result := (queryRE b attributes filters rows db).1
    executed := (queryRE b attributes filters rows db).2
    post := b }

/-- The six aggregate expressions of `stats` for a `Continuous` column, joined with
`", "` (note Python's adjacent-literal concatenation: `... ELSE 0` runs into `END)`). -/
def statsContinuous (c : String) : String :=
  String.intercalate ", "
    [ "MIN(" ++ c ++ ")"
    , "MAX(" ++ c ++ ")"
    , "AVG(" ++ c ++ ")"
    , "STDDEV(" ++ c ++ ")"
    , "SUM(CASE TRUE       WHEN " ++ c ++ " IS NULL THEN 1       ELSE 0END)"
    , "SUM(CASE TRUE       WHEN " ++ c ++ " IS NULL THEN 0       ELSE 1END)" ]

/-- The six expressions of `stats` for a non-`Continuous` column. -/
def statsOther (c : String) : String :=
  String.intercalate ", "
    [ "NULL"
    , "NULL"
    , "NULL"
    , "NULL"
    , "SUM(CASE TRUE       WHEN " ++ c ++ " IS NULL THEN 1       ELSE 0END)"
    , "SUM(CASE TRUE       WHEN " ++ c ++ " IS NULL THEN 0       ELSE 1END)" ]

/-- The per-column loop of `stats`: `column.to_sql()` (an `AttributeError` when the
method is missing) and the branch on `column.var_type == column.VarTypes.Continuous`. -/
def statParts : List Attr → Except PyErr (List String)
  | [] => .ok []
  | c :: rest =>
    match c.to_sql with
    | none => .error (.attributeError "object has no attribute to_sql")
    | some s =>
      match statParts rest with
      | .error e => .error e
      | .ok ps =>
        .ok ((if c.var_type = VarType.Continuous then statsContinuous s else statsOther s) :: ps)

/-- The single SQL string `stats` executes:
`"""SELECT %s FROM "%s" %s""" % (stats_sql, self.table_name, where)`. -/
def statsSqlOf (b : Backend) (columns : List Attr) (w : String) : Except PyErr String :=
  match statParts columns with
  | .error e => .error e
  | .ok parts =>
    .ok ("SELECT " ++ String.intercalate ", " parts ++ " FROM \"" ++ b.table_name ++ "\" " ++ w)

/-- Python tuple slice `l[a:b2]` (clamping, as in Python). -/
def slicePy (l : List String) (a b2 : Nat) : List String :=
  (l.drop a).take (b2 - a)

/-- Method `PostgreBackend.stats` before packaging: `cur.fetchone()` on the executed SQL; when
it returns `None` (no row) the loop body `results[6*i:6*(i+1)]` raises `TypeError`
unless `columns` is empty (empty `range`). -/
def statsRE (b : Backend) (columns : List Attr) (w : String) (db : Db) :
    Except PyErr (String × List (List String)) × List String :=
  match statsSqlOf b columns w with
  | .error e => (.error e, [])
  | .ok sql =>
    ( match db sql with
      | [] =>
        if columns.isEmpty then .ok (sql, [])
        else .error (.typeError "NoneType object is not subscriptable")
      | row :: _ =>
        .ok (sql, (List.range columns.length).map (fun i => slicePy row (6 * i) (6 * (i + 1))))
    , [sql] )

/-- Method `PostgreBackend.stats(columns, where)`.  No attribute of `self` is assigned. -/
def Backend.stats (b : Backend) (columns : List Attr) (w : String) (db : Db) :
    MethodOut (String × List (List String)) :=
  { result := (statsRE b columns w db).1
    executed := (statsRE b columns w db).2
    post := b }

/-- The per-column SQL of `distributions` (the `%(...)s` template of the source, with
its exact newlines and indentation). -/
def distSql (b : Backend) (col : String) (w : String) : String :=
  "\n                SELECT " ++ col ++ ", COUNT(" ++ col ++ ")\n                  FROM \"" ++
    b.table_name ++ "\"\n                    " ++ w ++ "\n              GROUP BY " ++ col ++
    "\n              ORDER BY " ++ col

/-- One entry of the `distributions` result list: `(dist.T, [])` for a `Continuous`
column, `(dist[:, 1].T, [])` otherwise.  The two branches have different array shapes. -/
inductive DistEntry where
  | full (m : List (List String))
  | counts (c : List String)
deriving DecidableEq

/-- Entry construction from the fetched rows: `dist = np.array(cur.fetchall())`, then the
var-type branch.  On an empty response a non-`Continuous` column hits
`dist[:, 1]` on a shape-`(0,)` array: `IndexError`. -/
def distEntryOf (c : Attr) (rows : List Row) : Except PyErr (DistEntry × List String) :=
  if c.var_type = VarType.Continuous then .ok (.full rows.transpose, [])
  else if rows.isEmpty then .error (.indexError "too many indices for array")
  else .ok (.counts (rows.map (fun r => r.getD 1 "")), [])

/-- The column loop of `distributions`: execute one query per column, in order, and
collect `(executed sql, entry)` pairs; an exception stops the loop. -/
def distLoop (b : Backend) (w : String) (db : Db) :
    List Attr → Except PyErr (List (String × (DistEntry × List String))) × List String
  | [] => (.ok [], [])
  | c :: rest =>
    match c.to_sql with
    | none => (.error (.attributeError "object has no attribute to_sql"), [])
    | some s =>
      let sql := distSql b s w
      match distEntryOf c (db sql) with
      | .error e => (.error e, [sql])
      | .ok entry =>
        match distLoop b w db rest with
        | (.error e, ex) => (.error e, sql :: ex)
        | (.ok entries, ex) => (.ok ((sql, entry) :: entries), sql :: ex)

/-- Method `PostgreBackend.distributions(columns, where)`.  No attribute of `self` is
assigned. -/
def Backend.distributions (b : Backend) (columns : List Attr) (w : String) (db : Db) :
    MethodOut (List (String × (DistEntry × List String))) :=
  { result := (distLoop b w db columns).1
    executed := (distLoop b w db columns).2
    post := b }

/-- The `SELECT DISTINCT` SQL of `_get_distinct_values`. -/
def distinctValuesSql (table_name field_name : String) : String :=
  "SELECT DISTINCT \"" ++ field_name ++ "\" FROM \"" ++ table_name ++ "\" ORDER BY " ++
    field_name ++ " LIMIT 21"

/-- Method `PostgreBackend._get_distinct_values`: fetch up to 21 distinct values; more than 20
fetched means the column is not treated as discrete and `()` is returned.  Each fetched
row holds the single selected column, extracted by `x[0]`. -/
def _get_distinct_values (table_name field_name : String) (db : Db) : List String :=
  let values := db (distinctValuesSql table_name field_name)
  if 20 < values.length then []
  else values.map (fun x => x.headD "")

/-- Method `PostgreBackend._get_field_values`: `()` for a `double` column, the distinct values
for a `char` column, and Python's implicit `None` otherwise. -/
def _get_field_values (table_name field_name field_type : String) (db : Db) :
    Option (List String) :=
  if strContains field_type "double" then some []
  else if strContains field_type "char" then
    some (_get_distinct_values table_name field_name db)
  else none

/-- The schema query of `_get_field_list`; the driver binds the `%s` parameter to the
table name, modelled by appending the bound value to the template. -/
def fieldListSql (table_name : String) : String :=
  "\n            SELECT column_name, data_type\n              FROM INFORMATION_SCHEMA.COLUMNS\n             WHERE table_name = " ++ table_name ++ ";"

/-- Method `PostgreBackend._get_field_list`: one `(name, type, values)` triple per schema row. -/
def _get_field_list (table_name : String) (db : Db) :
    List (String × String × Option (List String)) :=
  (db (fieldListSql table_name)).map (fun r =>
    let fname := r.headD ""
    let ftype := (r.drop 1).headD ""
    (fname, ftype, _get_field_values table_name fname ftype db))

/-- Method `PostgreBackend._get_table_info`. -/
def _get_table_info (table_name : String) (db : Db) : TableInfo :=
  TableInfo.make (_get_field_list table_name db)

/-- Method `PostgreBackend.connect`: the only method that assigns `self.table_name` and
`self.table_info` (the connection parameters live in `db`). -/
def connect (table : String) (db : Db) : Backend :=
  { table_name := table
    table_info := _get_table_info table db }

/-- Modelled from the spec: `CrossValidation.KFold` (module `Orange.evaluation.cross`,
exercised by `src/Orange/tests/test_evaluation.py`) is not under `src/`.  Per the spec,
cross-validation is an "ML evaluation technique partitioning data into folds to estimate
generalization performance": rows `0..nrows-1` are split into `k` folds (row `i` in fold
`i % k`); a learner trained on the rows outside a fold predicts each row of the fold,
giving per input row one predicted class and one probability row over the `nclasses`
values of the class variable.  The learner maps a training index set and a row to a
predicted class and a class-indexed probability. -/
def KFold (nrows k nclasses : Nat) (learner : List Nat → Nat → Nat × (Nat → ℚ)) :
    List Nat × List (List ℚ) :=
  let predict := fun i =>
    learner ((List.range nrows).filter (fun i2 => i2 % k != i % k)) i
  ( (List.range nrows).map (fun i => (predict i).1)
  , (List.range nrows).map (fun i => (List.range nclasses).map (fun c => (predict i).2 c)) )

/-- The fold with index `j` under the `i % k` assignment of `KFold`. -/
def foldIndices (nrows k j : Nat) : List Nat :=
  (List.range nrows).filter (fun i => i % k == j)

/-! Claim-side (spec-worded) renderings of the SQL strings, to be compared with what the
source-translated definitions build. -/

/-- Spec wording of one field string: `(sql_i) AS "name_i"`. -/
def attrFieldSpec (a : Attr) : String :=
  "(" ++ a.to_sql.getD "" ++ ") AS \"" ++ a.name ++ "\""

/-- Spec wording of the `WHERE` part: nothing when every filter is empty, else `WHERE`
with the non-empty filters joined by `" AND "`. -/
def whereClauseSpec (filters : List String) : String :=
  let nonEmpty := filters.filter (fun f => f != "")
  if nonEmpty.isEmpty then "" else " WHERE " ++ String.intercalate " AND " nonEmpty ++ " "

/-- Spec wording of the whole `SELECT`: field list, `FROM "table"`, optional `WHERE`. -/
def selectSqlSpec (b : Backend) (fieldList : String) (filters : List String) : String :=
  "SELECT " ++ fieldList ++ " FROM \"" ++ b.table_name ++ "\" " ++ whereClauseSpec filters

/-- Spec wording of the six `stats` aggregates of one column: `MIN`, `MAX`, `AVG`,
`STDDEV` plus the NULL/non-NULL counters for a `Continuous` column, four literal `NULL`s
plus the same counters otherwise. -/
def statPartSpec (c : Attr) : String :=
  let s := c.to_sql.getD ""
  if c.var_type = VarType.Continuous then
    String.intercalate ", "
      [ "MIN(" ++ s ++ ")"
      , "MAX(" ++ s ++ ")"
      , "AVG(" ++ s ++ ")"
      , "STDDEV(" ++ s ++ ")"
      , "SUM(CASE TRUE       WHEN " ++ s ++ " IS NULL THEN 1       ELSE 0END)"
      , "SUM(CASE TRUE       WHEN " ++ s ++ " IS NULL THEN 0       ELSE 1END)" ]
  else
    String.intercalate ", "
      [ "NULL"
      , "NULL"
      , "NULL"
      , "NULL"
      , "SUM(CASE TRUE       WHEN " ++ s ++ " IS NULL THEN 1       ELSE 0END)"
      , "SUM(CASE TRUE       WHEN " ++ s ++ " IS NULL THEN 0       ELSE 1END)" ]

/-- Spec wording of the single `stats` SQL string. -/
def statsSqlSpec (b : Backend) (columns : List Attr) (w : String) : String :=
  "SELECT " ++ String.intercalate ", " (columns.map statPartSpec) ++ " FROM \"" ++
    b.table_name ++ "\" " ++ w

/-- Spec wording of the per-column `distributions` SQL. -/
def distSqlSpec (b : Backend) (c : Attr) (w : String) : String :=
  distSql b (c.to_sql.getD "") w

/-- Spec wording of one `distributions` entry: the transposed `(value, count)` array for
a `Continuous` column, only the counts column otherwise, each paired with `[]`. -/
def distEntrySpec (c : Attr) (rows : List Row) : DistEntry × List String :=
  if c.var_type = VarType.Continuous then (.full rows.transpose, [])
  else (.counts (rows.map (fun r => r.getD 1 "")), [])

/-! Helper lemmas. -/

theorem fetchLoop_eq (l : List Row) : fetchLoop l = l := by
  induction l with
  | nil => rfl
  | cons r rest ih => simp [fetchLoop, ih]

theorem buildFieldStrs_ok_of_all (attrs : List Attr) (h : ∀ a ∈ attrs, a.to_sql ≠ none) :
    buildFieldStrs attrs = .ok (attrs.map attrFieldSpec) := by
  induction attrs with
  | nil => rfl
  | cons a rest ih =>
    have ha : a.to_sql ≠ none := h a (List.mem_cons_self a rest)
    obtain ⟨s, hs⟩ := Option.ne_none_iff_exists'.mp ha
    have hrest := ih (fun x hx => h x (List.mem_cons_of_mem a hx))
    simp [buildFieldStrs, hs, hrest, attrFieldSpec]

theorem buildFieldStrs_length (attrs : List Attr) (fs : List String)
    (h : buildFieldStrs attrs = .ok fs) : fs.length = attrs.length := by
  induction attrs generalizing fs with
  | nil => simp [buildFieldStrs] at h; simp [← h]
  | cons a rest ih =>
    simp only [buildFieldStrs] at h
    cases hts : a.to_sql with
    | none => simp [hts] at h
    | some s =>
      simp only [hts] at h
      cases hr : buildFieldStrs rest with
      | error e => simp [hr] at h
      | ok fs2 =>
        simp only [hr] at h
        cases h
        simp [ih fs2 hr]

theorem buildFieldStrs_error_assert (attrs : List Attr) (e : PyErr)
    (h : buildFieldStrs attrs = .error e) :
    e = .assertionError "Cannot use ordinary attributes with sql backend" := by
  induction attrs generalizing e with
  | nil => simp [buildFieldStrs] at h
  | cons a rest ih =>
    simp only [buildFieldStrs] at h
    cases hts : a.to_sql with
    | none => simp [hts] at h; exact h.symm
    | some s =>
      simp only [hts] at h
      cases hr : buildFieldStrs rest with
      | error e2 =>
        rw [hr] at h
        cases h
        exact ih _ hr
      | ok fs2 => simp [hr] at h

theorem buildFieldStrs_of_missing (attrs : List Attr) (h : ∃ a ∈ attrs, a.to_sql = none) :
    buildFieldStrs attrs =
      .error (.assertionError "Cannot use ordinary attributes with sql backend") := by
  induction attrs with
  | nil => simp at h
  | cons a rest ih =>
    obtain ⟨x, hx, hxn⟩ := h
    rcases List.mem_cons.mp hx with hxa | hxr
    · subst hxa
      simp [buildFieldStrs, hxn]
    · cases hts : a.to_sql with
      | none => simp [buildFieldStrs, hts]
      | some s => simp [buildFieldStrs, hts, ih ⟨x, hxr, hxn⟩]

theorem buildSql_ne_noFields (b : Backend) (fields filters : List String)
    (rows : Option RowsArg) :
    buildSql b fields filters rows ≠ .error (.valueError "No fields selected.") := by
  unfold buildSql
  rcases rows with _ | ⟨st, sp⟩ | l
  · simp
  · rcases sp with _ | v
    · simp
    · by_cases hv : v = 0 <;> simp [hv]
  · rcases l with _ | ⟨x, xs⟩
    · simp [listMin, listMax]
    · simp [listMin, listMax]

theorem statParts_ok_of_all (columns : List Attr) (h : ∀ c ∈ columns, c.to_sql ≠ none) :
    statParts columns = .ok (columns.map statPartSpec) := by
  induction columns with
  | nil => rfl
  | cons c rest ih =>
    have hc : c.to_sql ≠ none := h c (List.mem_cons_self c rest)
    obtain ⟨s, hs⟩ := Option.ne_none_iff_exists'.mp hc
    have hrest := ih (fun x hx => h x (List.mem_cons_of_mem c hx))
    by_cases hv : c.var_type = VarType.Continuous <;>
      simp [statParts, hs, hrest, statPartSpec, statsContinuous, statsOther, hv]

theorem foldl_min_le_init (xs : List Int) (acc : Int) : xs.foldl min acc ≤ acc := by
  induction xs generalizing acc with
  | nil => exact le_refl _
  | cons x xs ih => exact le_trans (ih (min acc x)) (min_le_left acc x)

theorem foldl_min_le_mem (xs : List Int) (acc j : Int) (hj : j ∈ xs) :
    xs.foldl min acc ≤ j := by
  induction xs generalizing acc with
  | nil => simp at hj
  | cons x xs ih =>
    rcases List.mem_cons.mp hj with hjx | hjm
    · subst hjx
      exact le_trans (foldl_min_le_init xs (min acc j)) (min_le_right acc j)
    · exact ih (min acc x) hjm

theorem foldl_max_ge_init (xs : List Int) (acc : Int) : acc ≤ xs.foldl max acc := by
  induction xs generalizing acc with
  | nil => exact le_refl _
  | cons x xs ih => exact le_trans (le_max_left acc x) (ih (max acc x))

theorem foldl_max_ge_mem (xs : List Int) (acc j : Int) (hj : j ∈ xs) :
    j ≤ xs.foldl max acc := by
  induction xs generalizing acc with
  | nil => simp at hj
  | cons x xs ih =>
    rcases List.mem_cons.mp hj with hjx | hjm
    · subst hjx
      exact le_trans (le_max_right acc j) (foldl_max_ge_init xs (max acc j))
    · exact ih (max acc x) hjm

theorem listMin_le (l : List Int) (mn : Int) (h : listMin l = some mn) :
    ∀ j ∈ l, mn ≤ j := by
  intro j hj
  rcases l with _ | ⟨x, xs⟩
  · simp at hj
  · simp only [listMin, Option.some.injEq] at h
    subst h
    rcases List.mem_cons.mp hj with hjx | hjm
    · subst hjx; exact foldl_min_le_init xs j
    · exact foldl_min_le_mem xs x j hjm

theorem listMax_ge (l : List Int) (mx : Int) (h : listMax l = some mx) :
    ∀ j ∈ l, j ≤ mx := by
  intro j hj
  rcases l with _ | ⟨x, xs⟩
  · simp at hj
  · simp only [listMax, Option.some.injEq] at h
    subst h
    rcases List.mem_cons.mp hj with hjx | hjm
    · subst hjx; exact foldl_max_ge_init xs j
    · exact foldl_max_ge_mem xs x j hjm

theorem intercalate_single (s : String) : String.intercalate ", " [s] = s := rfl

theorem buildSql_none (b : Backend) (fields filters : List String) :
    buildSql b fields filters none =
      .ok (selectSqlSpec b (String.intercalate ", " fields) filters) := by
  unfold buildSql selectSqlSpec whereClauseSpec
  by_cases hf : (filters.filter (fun f => f != "")).isEmpty <;>
    simp [hf, String.append_assoc, String.append_empty]
  all_goals (apply String.ext; simp [String.data_append, List.append_assoc])

theorem buildSql_slice_some (b : Backend) (fields filters : List String) (st : Option Int)
    (sp : Int) (hsp : sp ≠ 0) :
    buildSql b fields filters (some (RowsArg.slice st (some sp))) =
      .ok (selectSqlSpec b (String.intercalate ", " fields) filters ++ " OFFSET " ++
        toString (st.getD 0) ++ " LIMIT " ++ toString (sp - st.getD 0)) := by
  unfold buildSql selectSqlSpec whereClauseSpec
  rcases st with _ | v
  · by_cases hf : (filters.filter (fun f => f != "")).isEmpty <;>
      simp [hf, hsp, String.append_assoc, String.append_empty]
    all_goals (apply String.ext; simp [String.data_append, List.append_assoc])
  · by_cases hv : v = 0 <;>
      by_cases hf : (filters.filter (fun f => f != "")).isEmpty <;>
        simp [hf, hv, hsp, String.append_assoc, String.append_empty]
    all_goals (apply String.ext; simp [String.data_append, List.append_assoc])

theorem buildSql_slice_nostop (b : Backend) (fields filters : List String)
    (st : Option Int) :
    buildSql b fields filters (some (RowsArg.slice st none)) =
      .error (.attributeError "TableInfo object has no attribute nrows") := rfl

theorem buildSql_indices (b : Backend) (fields filters : List String) (l : List Int)
    (mn mx : Int) (hmn : listMin l = some mn) (hmx : listMax l = some mx) :
    buildSql b fields filters (some (RowsArg.indices l)) =
      .ok (selectSqlSpec b (String.intercalate ", " fields) filters ++ " OFFSET " ++
        toString mn ++ " LIMIT " ++ toString (mx - mn + 1)) := by
  unfold buildSql selectSqlSpec whereClauseSpec
  by_cases hf : (filters.filter (fun f => f != "")).isEmpty <;>
    simp [hf, hmn, hmx, String.append_assoc, String.append_empty]
  all_goals (apply String.ext; simp [String.data_append, List.append_assoc])

theorem statsSqlOf_ok (b : Backend) (columns : List Attr) (w : String)
    (h : ∀ c ∈ columns, c.to_sql ≠ none) :
    statsSqlOf b columns w = .ok (statsSqlSpec b columns w) := by
  unfold statsSqlOf statsSqlSpec
  rw [statParts_ok_of_all columns h]

theorem buildFields_some_ok (attrs : List Attr) (h : ∀ a ∈ attrs, a.to_sql ≠ none)
    (hne : attrs ≠ []) :
    buildFields (some attrs) = .ok (attrs.map attrFieldSpec) := by
  simp only [buildFields, buildFieldStrs_ok_of_all attrs h]
  simp [List.isEmpty_iff, hne]

/-! Claim theorems. -/

/-- C1: `query` with non-None, non-empty attributes, a filters sequence and `rows=None`
builds exactly one SQL string `SELECT (sql1) AS "name1", ... FROM "table"` followed, when
at least one filter is non-empty, by `WHERE` with the non-empty filters joined by
`" AND "` (empty filters dropped), executes it on the driver cursor (that one string and
nothing else), and yields exactly the fetched rows in cursor order; with
`attributes=None` the field list is exactly `*`. -/
theorem C1_query_select (b : Backend) (attrs : List Attr) (filters : List String) (db : Db)
    (hall : ∀ a ∈ attrs, a.to_sql ≠ none) (hne : attrs ≠ []) :
    ((b.query (some attrs) filters none db).result =
      Except.ok (selectSqlSpec b (String.intercalate ", " (attrs.map attrFieldSpec)) filters,
        db (selectSqlSpec b (String.intercalate ", " (attrs.map attrFieldSpec)) filters))) ∧
    ((b.query (some attrs) filters none db).executed =
      [selectSqlSpec b (String.intercalate ", " (attrs.map attrFieldSpec)) filters]) ∧
    ((b.query none filters none db).result =
      Except.ok (selectSqlSpec b "*" filters, db (selectSqlSpec b "*" filters))) ∧
    ((b.query none filters none db).executed = [selectSqlSpec b "*" filters]) := by
  have hb := buildFields_some_ok attrs hall hne
  have hbn : buildFields none = .ok ["*"] := rfl
  have hstar : String.intercalate ", " ["*"] = "*" := intercalate_single "*"
  refine ⟨?_, ?_, ?_, ?_⟩ <;>
    simp [Backend.query, queryRE, hb, hbn, buildSql_none, fetchLoop_eq, hstar]

/-- C3 (code bug): with `rows` a slice whose `stop` is a non-zero integer, the generated
SQL is the `SELECT` base followed by `OFFSET s LIMIT (stop - s)` with `s` the slice's
`start` (0 when unset); but when `stop` is unset the code crashes with `AttributeError`
(instead of using a row count), because `TableInfo.__init__` never stores `nrows` and
`_get_nrows` is never called — no SQL is executed in that case. -/
theorem C3_slice_sql (b : Backend) (db : Db) (filters : List String) (st : Option Int)
    (sp : Int) (hsp : sp ≠ 0) :
    ((b.query none filters (some (RowsArg.slice st (some sp))) db).result =
      Except.ok (selectSqlSpec b "*" filters ++ " OFFSET " ++ toString (st.getD 0) ++
          " LIMIT " ++ toString (sp - st.getD 0),
        db (selectSqlSpec b "*" filters ++ " OFFSET " ++ toString (st.getD 0) ++
          " LIMIT " ++ toString (sp - st.getD 0)))) ∧
    ((b.query none filters (some (RowsArg.slice st none)) db).result =
      Except.error (PyErr.attributeError "TableInfo object has no attribute nrows")) ∧
    ((b.query none filters (some (RowsArg.slice st none)) db).executed = []) := by
  have hstar : String.intercalate ", " ["*"] = "*" := intercalate_single "*"
  have hs := buildSql_slice_some b ["*"] filters st sp hsp
  rw [hstar] at hs
  refine ⟨?_, ?_, ?_⟩ <;>
    simp [Backend.query, queryRE, buildFields, hs, buildSql_slice_nostop, fetchLoop_eq]

/-- C5: SQL construction is deterministic — two runs of `query` (or `stats`) on backends
with equal `table_name` and `table_info` and equal arguments pass identical SQL strings
to the cursor, whatever the databases answer (no hidden input influences the SQL). -/
theorem C5_sql_deterministic (b1 b2 : Backend) (h1 : b1.table_name = b2.table_name)
    (h2 : b1.table_info = b2.table_info) (attributes : Option (List Attr))
    (filters : List String) (rows : Option RowsArg) (columns : List Attr) (w : String)
    (db1 db2 : Db) :
    ((b1.query attributes filters rows db1).executed =
      (b2.query attributes filters rows db2).executed) ∧
    ((b1.stats columns w db1).executed = (b2.stats columns w db2).executed) := by
  have hb : b1 = b2 := by
    cases b1; cases b2
    simp only [Backend.mk.injEq]
    exact ⟨h1, h2⟩
  subst hb
  constructor
  · show (queryRE b1 attributes filters rows db1).2 = (queryRE b1 attributes filters rows db2).2
    unfold queryRE
    rcases hf : buildFields attributes with e | fields
    · rfl
    · rcases hs : buildSql b1 fields filters rows with e | sql <;> simp [hf, hs]
  · show (statsRE b1 columns w db1).2 = (statsRE b1 columns w db2).2
    unfold statsRE
    rcases hs : statsSqlOf b1 columns w with e | sql <;> simp [hs]

/-- C6: the read operations `query`, `stats` and `distributions` leave the backend's own
state (`table_name`, `table_info` with its `fields`, `field_names` and `values`)
unchanged, and `connect` is the operation that assigns them. -/
theorem C6_reads_leave_state (b : Backend) (attributes : Option (List Attr))
    (filters : List String) (rows : Option RowsArg) (columns cols2 : List Attr)
    (w w2 : String) (db : Db) (t : String) :
    ((b.query attributes filters rows db).post = b) ∧
    ((b.stats columns w db).post = b) ∧
    ((b.distributions cols2 w2 db).post = b) ∧
    ((connect t db).table_name = t) ∧
    ((connect t db).table_info = _get_table_info t db) :=
  ⟨rfl, rfl, rfl, rfl, rfl⟩

/-- C9: `query` raises `ValueError "No fields selected."` exactly when `attributes` is
non-None and empty; every element of a non-None `attributes` must have a `to_sql`
method, else the assert fires; and in the `ValueError` case no SQL string is passed to
the cursor and the backend state is unchanged. -/
theorem C9_query_valueError_iff (b : Backend) (filters : List String)
    (rows : Option RowsArg) (db : Db) (attributes : Option (List Attr)) :
    (((b.query attributes filters rows db).result =
        Except.error (PyErr.valueError "No fields selected.")) ↔ attributes = some []) ∧
    ((b.query (some []) filters rows db).executed = [] ∧
      (b.query (some []) filters rows db).post = b) ∧
    (∀ attrs, attributes = some attrs → (∃ a ∈ attrs, a.to_sql = none) →
      (b.query attributes filters rows db).result =
        Except.error (PyErr.assertionError
          "Cannot use ordinary attributes with sql backend")) := by
  refine ⟨⟨?_, ?_⟩, ⟨rfl, rfl⟩, ?_⟩
  · intro h
    rcases attributes with _ | attrs
    · exfalso
      rcases hs : buildSql b ["*"] filters rows with e | sql
      · simp [Backend.query, queryRE, buildFields, hs] at h
        exact buildSql_ne_noFields b ["*"] filters rows (by rw [hs, h])
      · simp [Backend.query, queryRE, buildFields, hs] at h
    · rcases attrs with _ | ⟨a, rest⟩
      · rfl
      · exfalso
        rcases hbf : buildFieldStrs (a :: rest) with e | fs
        · have he := buildFieldStrs_error_assert (a :: rest) e hbf
          subst he
          simp [Backend.query, queryRE, buildFields, hbf] at h
        · have hlen := buildFieldStrs_length (a :: rest) fs hbf
          have hfe : fs.isEmpty = false := by
            rcases fs with _ | _
            · simp at hlen
            · rfl
          rcases hs : buildSql b fs filters rows with e | sql
          · simp [Backend.query, queryRE, buildFields, hbf, hfe, hs] at h
            exact buildSql_ne_noFields b fs filters rows (by rw [hs, h])
          · simp [Backend.query, queryRE, buildFields, hbf, hfe, hs] at h
  · intro h
    subst h
    rfl
  · intro attrs ha hmiss
    subst ha
    have := buildFieldStrs_of_missing attrs hmiss
    simp [Backend.query, queryRE, buildFields, this]

/-- C10: `query` with a non-slice iterable of indices generates `OFFSET min(rows)` and
`LIMIT max(rows) - min(rows) + 1`, so the selected window is exactly the integers between
the minimum and the maximum requested index — covering every requested index but also
every unrequested index in between — and for the empty iterable the call fails with
`ValueError` (Python's `min` of an empty sequence) instead of returning no rows. -/
theorem C10_indices_minmax (b : Backend) (db : Db) (filters : List String) (l : List Int)
    (mn mx : Int) (hmn : listMin l = some mn) (hmx : listMax l = some mx) :
    ((b.query none filters (some (RowsArg.indices l)) db).result =
      Except.ok (selectSqlSpec b "*" filters ++ " OFFSET " ++ toString mn ++ " LIMIT " ++
          toString (mx - mn + 1),
        db (selectSqlSpec b "*" filters ++ " OFFSET " ++ toString mn ++ " LIMIT " ++
          toString (mx - mn + 1)))) ∧
    (∀ j ∈ l, mn ≤ j ∧ j ≤ mx) ∧
    (∀ j : Int, (mn ≤ j ∧ j ≤ mx) ↔ (mn ≤ j ∧ j < mn + (mx - mn + 1))) ∧
    ((b.query none filters (some (RowsArg.indices [])) db).result =
      Except.error (PyErr.valueError "min() arg is an empty sequence")) := by
  have hstar : String.intercalate ", " ["*"] = "*" := intercalate_single "*"
  have hs := buildSql_indices b ["*"] filters l mn mx hmn hmx
  rw [hstar] at hs
  refine ⟨?_, ?_, ?_, ?_⟩
  · simp [Backend.query, queryRE, buildFields, hs, fetchLoop_eq]
  · exact fun j hj => ⟨listMin_le l mn hmn j hj, listMax_ge l mx hmx j hj⟩
  · intro j
    omega
  · rfl

/-- C2: `stats` on `n` columns issues a single `SELECT` against the table — per column
the six aggregates `MIN`, `MAX`, `AVG`, `STDDEV` and the NULL/non-NULL counters when its
`var_type` is `Continuous`, four literal `NULL`s and the same counters otherwise — and
returns exactly `n` entries, entry `i` being the slice of the fetched row at positions
`6*i` through `6*i+5` (6 values). -/
theorem C2_stats_shape (b : Backend) (columns : List Attr) (w : String) (db : Db)
    (hall : ∀ c ∈ columns, c.to_sql ≠ none) (row : List String) (rest : List Row)
    (hdb : db (statsSqlSpec b columns w) = row :: rest) :
    ((b.stats columns w db).result =
      Except.ok (statsSqlSpec b columns w,
        (List.range columns.length).map (fun i => slicePy row (6 * i) (6 * (i + 1))))) ∧
    ((b.stats columns w db).executed = [statsSqlSpec b columns w]) ∧
    (((List.range columns.length).map
        (fun i => slicePy row (6 * i) (6 * (i + 1)))).length = columns.length) ∧
    (∀ i : Nat, slicePy row (6 * i) (6 * (i + 1)) = (row.drop (6 * i)).take 6) := by
  have hs := statsSqlOf_ok b columns w hall
  refine ⟨?_, ?_, by simp, ?_⟩
  · simp [Backend.stats, statsRE, hs, hdb]
  · simp [Backend.stats, statsRE, hs]
  · intro i
    unfold slicePy
    congr 1
    omega

/-- C4 counterexample: on a backend whose table is empty, `distributions` over one
non-`Continuous` column does not return an entry for the column — `numpy`'s
`dist[:, 1]` on the empty fetched array raises `IndexError` — so the claim's
"returns a list with one entry per column" fails as stated. -/
theorem C4_counterexample :
    (Backend.distributions ⟨"t", TableInfo.make []⟩
        [⟨"c", VarType.Discrete, some "c"⟩] "" (fun _ => [])).result =
      Except.error (PyErr.indexError "too many indices for array") := rfl

theorem distLoop_ok (b : Backend) (w : String) (db : Db) (columns : List Attr)
    (hall : ∀ c ∈ columns, c.to_sql ≠ none)
    (hne : ∀ c ∈ columns, c.var_type ≠ VarType.Continuous → db (distSqlSpec b c w) ≠ []) :
    distLoop b w db columns =
      (.ok (columns.map (fun c =>
          (distSqlSpec b c w, distEntrySpec c (db (distSqlSpec b c w))))),
        columns.map (fun c => distSqlSpec b c w)) := by
  induction columns with
  | nil => rfl
  | cons c rest ih =>
    obtain ⟨s, hsv⟩ := Option.ne_none_iff_exists'.mp (hall c (List.mem_cons_self c rest))
    have hrest := ih (fun x hx => hall x (List.mem_cons_of_mem c hx))
      (fun x hx => hne x (List.mem_cons_of_mem c hx))
    have hsql : distSqlSpec b c w = distSql b s w := by
      simp [distSqlSpec, hsv]
    have hentry : distEntryOf c (db (distSql b s w)) =
        .ok (distEntrySpec c (db (distSql b s w))) := by
      unfold distEntryOf distEntrySpec
      by_cases hv : c.var_type = VarType.Continuous
      · simp [hv]
      · have hnn : db (distSqlSpec b c w) ≠ [] := hne c (List.mem_cons_self c rest) hv
        rw [hsql] at hnn
        simp [hv, List.isEmpty_iff, hnn]
    rw [← hsql] at hentry
    simp [distLoop, hsv, ← hsql, hentry, hrest]

/-- C4 amended: provided every column has `to_sql` and, for each non-`Continuous`
column, its distribution query fetches at least one row, `distributions` issues one
`SELECT col, COUNT(col) ... GROUP BY col ORDER BY col` query per column in order and
returns one entry per column in the same order — the transposed `(value, count)` array
paired with `[]` for a `Continuous` column, only the counts column (index 1 of each
fetched row) paired with `[]` otherwise. -/
theorem C4_distributions_amended (b : Backend) (columns : List Attr) (w : String)
    (db : Db) (hall : ∀ c ∈ columns, c.to_sql ≠ none)
    (hne : ∀ c ∈ columns, c.var_type ≠ VarType.Continuous → db (distSqlSpec b c w) ≠ []) :
    ((b.distributions columns w db).result =
      Except.ok (columns.map (fun c =>
        (distSqlSpec b c w, distEntrySpec c (db (distSqlSpec b c w)))))) ∧
    ((b.distributions columns w db).executed = columns.map (fun c => distSqlSpec b c w)) ∧
    ((columns.map (fun c =>
        (distSqlSpec b c w, distEntrySpec c (db (distSqlSpec b c w))))).length =
      columns.length) := by
  have h := distLoop_ok b w db columns hall hne
  refine ⟨?_, ?_, by simp⟩ <;> simp [Backend.distributions, h]

/-- C7 (spec-modelled): `KFold` partitions the rows into folds — each row index below
`nrows` lies in exactly one of the `k` folds — and produces one prediction per input
row; the returned probability matrix has one row per input row and one column per class
value, i.e. shape `(nrows, nclasses)`. -/
theorem C7_kfold_shape (nrows k nclasses : Nat)
    (learner : List Nat → Nat → Nat × (Nat → ℚ)) (hk : 0 < k) :
    (∀ i < nrows, ∃! j, j < k ∧ i ∈ foldIndices nrows k j) ∧
    ((KFold nrows k nclasses learner).1.length = nrows) ∧
    ((KFold nrows k nclasses learner).2.length = nrows) ∧
    (∀ p ∈ (KFold nrows k nclasses learner).2, p.length = nclasses) := by
  refine ⟨?_, by simp [KFold], by simp [KFold], ?_⟩
  · intro i hi
    refine ⟨i % k, ⟨Nat.mod_lt i hk, ?_⟩, ?_⟩
    · simp [foldIndices, List.mem_filter, List.mem_range, hi]
    · intro y hy
      have := hy.2
      simp [foldIndices, List.mem_filter, List.mem_range] at this
      exact this.2.symm
  · intro p hp
    simp only [KFold, List.mem_map] at hp
    obtain ⟨i, _, hpi⟩ := hp
    simp [← hpi]

theorem _get_distinct_values_le (table f : String) (db : Db) :
    (_get_distinct_values table f db).length ≤ 20 := by
  unfold _get_distinct_values
  by_cases hlen : 20 < (db (distinctValuesSql table f)).length
  · simp [hlen]
  · simp only [hlen, if_false]
    simp only [List.length_map]
    omega

theorem _get_field_values_char (table fname ftype : String) (db : Db)
    (hchar : strContains ftype "char" = true) :
    ∃ l, _get_field_values table fname ftype db = some l ∧ l.length ≤ 20 := by
  unfold _get_field_values
  by_cases hd : strContains ftype "double" = true
  · rw [if_pos hd]
    exact ⟨[], rfl, by simp⟩
  · rw [if_neg hd, if_pos hchar]
    exact ⟨_get_distinct_values table fname db, rfl, _get_distinct_values_le table fname db⟩

/-- C8: `_get_distinct_values` always returns at most 20 values — it queries at most 21
distinct values ordered by the field (`LIMIT 21`), and returns the empty tuple whenever
more than 20 are fetched — so in a `TableInfo` built by `connect`/`_get_table_info`
every `char`-typed field's entry in `values` holds at most 20 elements. -/
theorem C8_distinct_values_bound (table field : String) (db : Db) :
    ((_get_distinct_values table field db).length ≤ 20) ∧
    (20 < (db (distinctValuesSql table field)).length →
      _get_distinct_values table field db = []) ∧
    (distinctValuesSql table field =
      "SELECT DISTINCT \"" ++ field ++ "\" FROM \"" ++ table ++ "\" ORDER BY " ++ field ++
        " LIMIT 21") ∧
    (∀ name ftype vals, (name, ftype, vals) ∈ (_get_table_info table db).fields →
      strContains ftype "char" = true →
      (name, vals) ∈ (_get_table_info table db).values ∧
        ∃ l, vals = some l ∧ l.length ≤ 20) := by
  refine ⟨_get_distinct_values_le table field db, ?_, rfl, ?_⟩
  · intro hlen
    unfold _get_distinct_values
    simp [hlen]
  · intro name ftype vals hmem hchar
    constructor
    · simp only [_get_table_info, TableInfo.make] at hmem ⊢
      exact List.mem_map.mpr ⟨(name, ftype, vals), hmem, rfl⟩
    · simp only [_get_table_info, TableInfo.make, _get_field_list, List.mem_map] at hmem
      obtain ⟨r, hrmem, hr⟩ := hmem
      injection hr with hn hr2
      injection hr2 with ht hv
      rw [← hv, hn, ht]
      exact _get_field_values_char table name ftype db hchar

/-! Concrete fixtures for the witness theorems. -/

/-- A connected backend on table `t` (schema irrelevant to the witnessed calls). -/
def bW : Backend :=
  { table_name := "t", table_info := TableInfo.make [] }

/-- A continuous column with `to_sql() = "col"`. -/
def aW : Attr :=
  { name := "x", var_type := VarType.Continuous, to_sql := some "col" }

/-- A discrete column with `to_sql() = "d"`. -/
def aD : Attr :=
  { name := "y", var_type := VarType.Discrete, to_sql := some "d" }

/-- A driver answering every query with one six-value row. -/
def dbW : Db := fun _ => [["1", "2", "3", "4", "5", "6"]]

/-- A driver answering every query with no rows. -/
def dbN : Db := fun _ => []

/-! Witnesses: each applies its claim's theorem at a concrete input. -/

theorem C1_witness :
    (Backend.query bW (some [aW]) ["f"] none dbN).result =
      Except.ok (selectSqlSpec bW (String.intercalate ", " ([aW].map attrFieldSpec)) ["f"],
        dbN (selectSqlSpec bW (String.intercalate ", " ([aW].map attrFieldSpec)) ["f"])) :=
  (C1_query_select bW [aW] ["f"] dbN (by decide) (by decide)).1

theorem C2_witness :
    (Backend.stats bW [aW] "" dbW).result =
      Except.ok (statsSqlSpec bW [aW] "",
        (List.range ([aW].length)).map
          (fun i => slicePy ["1", "2", "3", "4", "5", "6"] (6 * i) (6 * (i + 1)))) :=
  (C2_stats_shape bW [aW] "" dbW (by decide) ["1", "2", "3", "4", "5", "6"] [] rfl).1

theorem C3_witness :
    (Backend.query bW none [] (some (RowsArg.slice (some 2) (some 10))) dbN).result =
      Except.ok (selectSqlSpec bW "*" [] ++ " OFFSET " ++ toString ((2 : Int)) ++
          " LIMIT " ++ toString ((10 : Int) - 2),
        dbN (selectSqlSpec bW "*" [] ++ " OFFSET " ++ toString ((2 : Int)) ++
          " LIMIT " ++ toString ((10 : Int) - 2))) :=
  (C3_slice_sql bW dbN [] (some 2) 10 (by decide)).1

theorem C4_witness :
    (Backend.distributions bW [aD] "" dbW).result =
      Except.ok ([aD].map (fun c =>
        (distSqlSpec bW c "", distEntrySpec c (dbW (distSqlSpec bW c ""))))) :=
  (C4_distributions_amended bW [aD] "" dbW (by decide) (by decide)).1

theorem C5_witness :
    (Backend.query bW none [] none dbN).executed =
      (Backend.query bW none [] none dbW).executed :=
  (C5_sql_deterministic bW bW rfl rfl none [] none [] "" dbN dbW).1

theorem C7_witness :
    (KFold 19 3 4 (fun _ _ => (0, fun _ => 0))).2.length = 19 :=
  (C7_kfold_shape 19 3 4 (fun _ _ => (0, fun _ => 0)) (by decide)).2.2.1

theorem C8_witness :
    (_get_distinct_values "t" "f" dbN).length ≤ 20 :=
  (C8_distinct_values_bound "t" "f" dbN).1

theorem C9_witness :
    (Backend.query bW (some []) [] none dbN).executed = [] :=
  (C9_query_valueError_iff bW [] none dbN (some [])).2.1.1

theorem C10_witness :
    (Backend.query bW none [] (some (RowsArg.indices [5, 2, 9])) dbN).result =
      Except.ok (selectSqlSpec bW "*" [] ++ " OFFSET " ++ toString ((2 : Int)) ++
          " LIMIT " ++ toString ((9 : Int) - 2 + 1),
        dbN (selectSqlSpec bW "*" [] ++ " OFFSET " ++ toString ((2 : Int)) ++
          " LIMIT " ++ toString ((9 : Int) - 2 + 1))) :=
  (C10_indices_minmax bW dbN [] [5, 2, 9] 2 9 (by decide) (by decide)).1

end Orange
